import Mathlib

/-!
# Verification of the Events-app social-media post generator

Shallow embedding of `src/app.py`. Strings are modelled as `List Char`
(Python `str`). The section-extraction step of `main` (lines 143-147),

    sections = posts.split('LinkedIn:')
    if len(sections) > 1:
        linkedin_text = sections[1].split('Twitter:')[0].strip()
        twitter_text = sections[1].split('Twitter:')[1].split('WhatsApp:')[0].strip()
        whatsapp_text = sections[1].split('WhatsApp:')[1].strip()

is embedded through the observations that for a non-empty separator,
Python's `s.split(sep)[0]` is the text before the first occurrence of
`sep` (the whole string when `sep` does not occur), `s.split(sep)[1]`
exists iff `sep` occurs and is the text strictly between the end of the
first occurrence and the start of the next occurrence (or the end of the
string), and `len(s.split(sep)) > 1` iff `sep` occurs in `s`.
Subscripting a missing `[1]` raises `IndexError`, modelled by the
`crashed` outcome.
-/

namespace EventsApp

/-- Position of the leftmost occurrence of `sep` in `s` (Python `s.find(sep)`
restricted to the found case; `none` when `sep` does not occur). -/
def firstOcc (sep : List Char) : List Char → Option Nat
  | [] => if sep.isEmpty then some 0 else none
  | c :: rest =>
    if sep.isPrefixOf (c :: rest) then some 0
    else (firstOcc sep rest).map (fun n => n + 1)

/-- Python `sep in s`. -/
def containsSeq (sep s : List Char) : Bool :=
  (firstOcc sep s).isSome

/-- Python `s.split(sep)[0]`: the text before the first occurrence of `sep`,
or all of `s` when `sep` does not occur. -/
def beforeFirst (sep s : List Char) : List Char :=
  match firstOcc sep s with
  | none => s
  | some i => s.take i

/-- Python `s.split(sep)[1]` for a non-empty `sep`: `none` when the index is
out of range (an `IndexError` in Python), otherwise the text strictly between
the end of the first occurrence of `sep` and the start of the next. -/
def splitGet1 (sep s : List Char) : Option (List Char) :=
  match firstOcc sep s with
  | none => none
  | some i => some (beforeFirst sep (s.drop (i + sep.length)))

/-- Python whitespace as used by `str.strip()` (the ASCII part, which is all
the repository's data ever contains). -/
def pyIsSpace (c : Char) : Bool :=
  c = ' ' || c = '\t' || c = '\n' || c = '\r' || c = '\x0b' || c = '\x0c'

/-- Python `s.strip()`. -/
def pyStrip (s : List Char) : List Char :=
  (((s.dropWhile pyIsSpace).reverse.dropWhile pyIsSpace)).reverse

/-- The literal label `'LinkedIn:'` from `app.py` line 143. -/
def lLinkedIn : List Char := "LinkedIn:".data

/-- The literal label `'Twitter:'` from `app.py` lines 145-146. -/
def lTwitter : List Char := "Twitter:".data

/-- The literal label `'WhatsApp:'` from `app.py` lines 146-147. -/
def lWhatsApp : List Char := "WhatsApp:".data

/-- Outcome of the extraction block at `app.py` lines 143-147. -/
inductive ExtractOutcome where
  /-- `len(sections) <= 1`: the `if` body is skipped, nothing extracted. -/
  | skipped : ExtractOutcome
  /-- A `split(...)[1]` subscript raised `IndexError`. -/
  | crashed : ExtractOutcome
  /-- All three texts were computed (lines 145-147). -/
  | ok (linkedin_text twitter_text whatsapp_text : List Char) : ExtractOutcome
deriving DecidableEq

/-- Lines 145-147 of `app.py`, operating on `sections[1]`. -/
def extractFromSection (sec : List Char) : ExtractOutcome :=
  match splitGet1 lTwitter sec with
  | none => .crashed
  | some afterTw =>
    match splitGet1 lWhatsApp sec with
    | none => .crashed
    | some afterWa =>
      .ok (pyStrip (beforeFirst lTwitter sec))
        (pyStrip (beforeFirst lWhatsApp afterTw))
        (pyStrip afterWa)

/-- Lines 143-147 of `app.py`: split on `'LinkedIn:'` and, when the label
occurred, extract the three platform texts from `sections[1]`. -/
def extractPosts (posts : List Char) : ExtractOutcome :=
  match splitGet1 lLinkedIn posts with
  | none => .skipped
  | some sec => extractFromSection sec

/-- `generate_social_media_posts` (`app.py` lines 8-42). The remote
completion call is an external collaborator; its behaviour is a parameter:
`some t` when the provider returned text `t`, `none` when it raised.
Returns the function's result together with whether `st.error` was shown
(the `except` branch, lines 40-42, catches the exception and returns
`None` instead of propagating it). -/
def generate_social_media_posts (provider : Option (List Char)) :
    Option (List Char) × Bool :=
  match provider with
  | some t => (some t, false)
  | none => (none, true)

/-- `generate_event_image` (`app.py` lines 44-78). Provider behaviour is a
parameter: `true` when an image was produced, `false` when the call raised.
Returns whether an image was returned (the `(None, None)` fallback of
line 78 gives `false`) together with whether `st.error` was shown. -/
def generate_event_image (provider : Bool) : Bool × Bool :=
  match provider with
  | true => (true, false)
  | false => (false, true)

/-- Python truthiness of the `posts` variable in `if posts and image:`
(line 135): `None` and the empty string are falsy. -/
def pyTruthy : Option (List Char) → Bool
  | none => false
  | some t => !t.isEmpty

/-- Whether the extraction block raised (and so aborted the rest of the
success branch). -/
def crashedB : ExtractOutcome → Bool
  | .crashed => true
  | _ => false

/-- What the success branch of `main` (lines 135-167) rendered. -/
structure SuccessView where
  /-- Line 140: `st.markdown(posts)` — the raw generated text, shown before
  any splitting is attempted. -/
  rawShown : List Char
  /-- Lines 143-159: the per-platform copy tabs, or the crash/skip
  outcome of the extraction. -/
  tabs : ExtractOutcome
  /-- Lines 161-167: the image column; not reached when the extraction
  block raised. -/
  imageShown : Bool
deriving DecidableEq

/-- Observable effects of one `main` run after the button press
(`app.py` lines 120-167). -/
structure MainRender where
  /-- A validation `st.error` was shown (line 122 or 124). -/
  validationError : Bool
  /-- `generate_social_media_posts` was invoked (line 130). -/
  calledText : Bool
  /-- `generate_event_image` was invoked (line 133). -/
  calledImage : Bool
  /-- The text call's `except` branch showed an error (line 41). -/
  textErrorShown : Bool
  /-- The image call's `except` branch showed an error (line 77). -/
  imageErrorShown : Bool
  /-- The `if posts and image:` branch (lines 135-167), when taken. -/
  successBlock : Option SuccessView
deriving DecidableEq

/-- `main` after the Generate button press (`app.py` lines 120-167), with
the two remote-provider behaviours as parameters. -/
def runMain (api_key event_details : List Char)
    (textProvider : Option (List Char)) (imageProvider : Bool) : MainRender :=
  if api_key = [] then
    ⟨true, false, false, false, false, none⟩
  else if event_details = [] ∨ (pyStrip event_details).length < 10 then
    ⟨true, false, false, false, false, none⟩
  else if pyTruthy (generate_social_media_posts textProvider).1
      && (generate_event_image imageProvider).1 then
    ⟨false, true, true,
      (generate_social_media_posts textProvider).2,
      (generate_event_image imageProvider).2,
      some ⟨((generate_social_media_posts textProvider).1).getD [],
        extractPosts (((generate_social_media_posts textProvider).1).getD []),
        !crashedB (extractPosts (((generate_social_media_posts textProvider).1).getD []))⟩⟩
  else
    ⟨false, true, true,
      (generate_social_media_posts textProvider).2,
      (generate_event_image imageProvider).2,
      none⟩

/-! ## Helper lemmas about occurrence search -/

theorem firstOcc_isSome_iff_infixOf (sep s : List Char) :
    (firstOcc sep s).isSome = true ↔ sep <:+: s := by
  induction s with
  | nil => cases sep <;> simp [firstOcc, List.infix_nil]
  | cons c rest ih =>
    by_cases hp : sep.isPrefixOf (c :: rest)
    · simp only [firstOcc, if_pos hp, Option.isSome_some, true_iff]
      exact List.IsPrefix.isInfix ( List.isPrefixOf_iff_prefix.mp hp)
    · have hnp : ¬ sep <+: c :: rest := fun h => hp ( List.isPrefixOf_iff_prefix.mpr h)
      simp only [firstOcc, if_neg hp, Option.isSome_map']
      rw [ih, List.infix_cons_iff]
      constructor
      · exact Or.inr
      · rintro (h | h)
        · exact absurd h hnp
        · exact h

theorem containsSeq_eq_true_iff (sep s : List Char) :
    containsSeq sep s = true ↔ sep <:+: s := by
  unfold containsSeq
  exact firstOcc_isSome_iff_infixOf sep s

theorem firstOcc_take_eq_none (sep : List Char) (hsep : sep ≠ []) :
    ∀ (s : List Char) (i : Nat), firstOcc sep s = some i → firstOcc sep (s.take i) = none := by
  intro s
  induction s with
  | nil =>
    intro i h
    rcases sep with _ | ⟨a, l⟩
    · exact absurd rfl hsep
    · simp [firstOcc] at h
  | cons c rest ih =>
    intro i h
    by_cases hp : sep.isPrefixOf (c :: rest)
    · rw [firstOcc, if_pos hp] at h
      obtain rfl : (0 : Nat) = i := Option.some_inj.mp h
      rcases sep with _ | ⟨a, l⟩
      · exact absurd rfl hsep
      · simp [firstOcc]
    · rw [firstOcc, if_neg hp] at h
      obtain ⟨j, hj, hji⟩ := Option.map_eq_some'.mp h
      subst hji
      have htk : (c :: rest).take (j + 1) = c :: rest.take j := rfl
      rw [htk]
      have hp2 : ¬ sep.isPrefixOf (c :: rest.take j) := by
        intro hcontra
        apply hp
        apply List.isPrefixOf_iff_prefix.mpr
        have h1 : sep <+: c :: rest.take j := List.isPrefixOf_iff_prefix.mp hcontra
        have h2 : c :: rest.take j <+: c :: rest := by
          have h3 := List.take_prefix (j + 1) (c :: rest)
          rwa [htk] at h3
        exact h1.trans h2
      rw [firstOcc, if_neg hp2, ih j hj]
      rfl

theorem beforeFirst_eq_take (sep s : List Char) (i : Nat) (h : firstOcc sep s = some i) :
    beforeFirst sep s = s.take i := by
  unfold beforeFirst
  rw [h]

theorem beforeFirst_eq_self (sep s : List Char) (h : firstOcc sep s = none) :
    beforeFirst sep s = s := by
  unfold beforeFirst
  rw [h]

theorem splitGet1_eq_some (sep s : List Char) (i : Nat) (h : firstOcc sep s = some i) :
    splitGet1 sep s = some (beforeFirst sep (s.drop (i + sep.length))) := by
  unfold splitGet1
  rw [h]

theorem containsSeq_beforeFirst_self (sep : List Char) (hsep : sep ≠ []) (s : List Char) :
    containsSeq sep (beforeFirst sep s) = false := by
  unfold containsSeq
  cases h : firstOcc sep s with
  | none => rw [beforeFirst_eq_self sep s h, h]; rfl
  | some i =>
    rw [beforeFirst_eq_take sep s i h, firstOcc_take_eq_none sep hsep s i h]
    rfl

theorem containsSeq_eq_false_of_infixOf (sep s t : List Char)
    (hts : t <:+: s) (hs : containsSeq sep s = false) :
    containsSeq sep t = false := by
  by_contra hne
  have ht : containsSeq sep t = true := by
    cases h : containsSeq sep t with
    | false => exact absurd h hne
    | true => rfl
  have h2 : sep <:+: s := ( (containsSeq_eq_true_iff sep t).mp ht).trans hts
  rw [(containsSeq_eq_true_iff sep s).mpr h2] at hs
  cases hs

theorem beforeFirst_prefixOf (sep s : List Char) : beforeFirst sep s <+: s := by
  unfold beforeFirst
  cases h : firstOcc sep s with
  | none => exact List.prefix_rfl
  | some i => exact List.take_prefix i s

theorem pyStrip_infixOf (s : List Char) : pyStrip s <:+: s := by
  unfold pyStrip
  have h1 : s.dropWhile pyIsSpace <:+ s := List.dropWhile_suffix pyIsSpace
  have h2 : (s.dropWhile pyIsSpace).reverse.dropWhile pyIsSpace <:+
      (s.dropWhile pyIsSpace).reverse := List.dropWhile_suffix pyIsSpace
  rw [← List.reverse_reverse ((s.dropWhile pyIsSpace).reverse.dropWhile pyIsSpace)] at h2
  have h3 := List.reverse_suffix.mp h2
  exact List.IsInfix.trans ( List.IsPrefix.isInfix h3) ( List.IsSuffix.isInfix h1)

theorem containsSeq_pyStrip_eq_false (sep x : List Char) (h : containsSeq sep x = false) :
    containsSeq sep (pyStrip x) = false :=
  containsSeq_eq_false_of_infixOf sep x (pyStrip x) (pyStrip_infixOf x) h

theorem containsSeq_beforeFirst_eq_false (sep sep2 x : List Char)
    (h : containsSeq sep x = false) :
    containsSeq sep (beforeFirst sep2 x) = false :=
  containsSeq_eq_false_of_infixOf sep x (beforeFirst sep2 x)
    ( List.IsPrefix.isInfix (beforeFirst_prefixOf sep2 x)) h

theorem splitGet1_not_contains (sep : List Char) (hsep : sep ≠ []) (s r : List Char)
    (h : splitGet1 sep s = some r) : containsSeq sep r = false := by
  unfold splitGet1 at h
  cases hf : firstOcc sep s with
  | none => rw [hf] at h; cases h
  | some i =>
    rw [hf] at h
    obtain rfl : beforeFirst sep (s.drop (i + sep.length)) = r := Option.some_inj.mp h
    exact containsSeq_beforeFirst_self sep hsep _

theorem extractPosts_eq_of_seg (posts sec : List Char)
    (h : splitGet1 lLinkedIn posts = some sec) :
    extractPosts posts = extractFromSection sec := by
  unfold extractPosts
  rw [h]

/-! ## Claim theorems -/

/-- C1: the claim says the section-extraction step never faults for missing
or reordered labels. The code contradicts it: on an input whose `LinkedIn:`
label is present but whose `Twitter:` (and `WhatsApp:`) labels are absent,
`sections[1].split('Twitter:')[1]` (line 146) raises `IndexError`, so the
extraction faults rather than yielding a representable result. -/
theorem extract_crashes_on_missing_labels :
    extractPosts ("LinkedIn: hello".data) = .crashed := by decide

/-- C2: the claim says that with `LinkedIn:` and `Twitter:` present in order
and `WhatsApp:` absent, parsing returns a degraded result with the LinkedIn
and Twitter bodies still extracted. The code contradicts it:
`sections[1].split('WhatsApp:')[1]` (line 147) raises `IndexError`, so no
result at all is produced. -/
theorem extract_crashes_without_whatsapp :
    extractPosts ("LinkedIn: a\nTwitter: b".data) = .crashed := by decide

/-- C3 (counterexample): label matching is not case-insensitive. Writing the
label as `TWITTER:` instead of `Twitter:` in an otherwise identical input
changes the parse result from a successful extraction to an `IndexError`
crash, so the two spellings do not produce identical results. -/
theorem label_case_changes_result :
    extractPosts ("LinkedIn: A Twitter: B WhatsApp: C".data)
        = .ok ("A".data) ("B".data) ("C".data) ∧
    extractPosts ("LinkedIn: A TWITTER: B WhatsApp: C".data) = .crashed ∧
    extractPosts ("LinkedIn: A Twitter: B WhatsApp: C".data)
        ≠ extractPosts ("LinkedIn: A TWITTER: B WhatsApp: C".data) := by decide

/-- C3 (amended): label matching is literal and case-sensitive — only the
exact strings `LinkedIn:`, `Twitter:`, `WhatsApp:` (exact capitalization,
colon included) are matched, so changing a label's case changes the parse
result; because matching is plain substring search, whitespace and markdown
markers immediately preceding a label do not prevent it from matching,
though adjacent markdown characters stay in the extracted bodies. -/
theorem label_matching_is_literal :
    extractPosts ("## LinkedIn: A\n**Twitter:** B\nWhatsApp: C".data)
        = .ok ("A\n**".data) ("** B".data) ("C".data) ∧
    extractPosts ("## LinkedIn: A\n**TWITTER:** B\nWhatsApp: C".data) = .crashed := by
  decide

/-- C5: on the spec's example input with all three labels in order, the
extraction succeeds and yields exactly the three expected bodies, each
trimmed of leading and trailing whitespace. -/
theorem example_three_labels_extracts :
    extractPosts
        ("LinkedIn: Join us! #Event\nTwitter: Come join! #Fun\nWhatsApp: Hey, check this out!".data)
      = .ok ("Join us! #Event".data) ("Come join! #Fun".data) ("Hey, check this out!".data) := by
  decide

/-- C4: whenever the extraction block completes (lines 145-147 all
succeed), no extracted body contains the label text of its own section or
of the section that follows it: the LinkedIn body contains neither
`LinkedIn:` nor `Twitter:`, the Twitter body contains neither `Twitter:`
nor `WhatsApp:`, and the WhatsApp body (the last section) does not contain
`WhatsApp:`. -/
theorem extracted_bodies_never_contain_labels (posts l t w : List Char)
    (h : extractPosts posts = .ok l t w) :
    containsSeq lLinkedIn l = false ∧ containsSeq lTwitter l = false ∧
    containsSeq lTwitter t = false ∧ containsSeq lWhatsApp t = false ∧
    containsSeq lWhatsApp w = false := by
  cases hsec : splitGet1 lLinkedIn posts with
  | none =>
    have hskip : extractPosts posts = .skipped := by
      unfold extractPosts
      rw [hsec]
    rw [hskip] at h
    cases h
  | some sec =>
    rw [extractPosts_eq_of_seg posts sec hsec] at h
    cases htw : splitGet1 lTwitter sec with
    | none =>
      have hcr : extractFromSection sec = .crashed := by
        unfold extractFromSection
        rw [htw]
      rw [hcr] at h
      cases h
    | some afterTw =>
      cases hwa : splitGet1 lWhatsApp sec with
      | none =>
        have hcr : extractFromSection sec = .crashed := by
          unfold extractFromSection
          rw [htw, hwa]
        rw [hcr] at h
        cases h
      | some afterWa =>
        have hok : extractFromSection sec
            = .ok (pyStrip (beforeFirst lTwitter sec))
                (pyStrip (beforeFirst lWhatsApp afterTw)) (pyStrip afterWa) := by
          unfold extractFromSection
          rw [htw, hwa]
        rw [hok] at h
        injection h with h1 h2 h3
        subst h1
        subst h2
        subst h3
        have hsecL : containsSeq lLinkedIn sec = false :=
          splitGet1_not_contains lLinkedIn (by decide) posts sec hsec
        have htwC : containsSeq lTwitter afterTw = false :=
          splitGet1_not_contains lTwitter (by decide) sec afterTw htw
        have hwaC : containsSeq lWhatsApp afterWa = false :=
          splitGet1_not_contains lWhatsApp (by decide) sec afterWa hwa
        refine ⟨?_, ?_, ?_, ?_, ?_⟩
        · exact containsSeq_pyStrip_eq_false _ _
            (containsSeq_beforeFirst_eq_false lLinkedIn lTwitter sec hsecL)
        · exact containsSeq_pyStrip_eq_false _ _
            (containsSeq_beforeFirst_self lTwitter (by decide) sec)
        · exact containsSeq_pyStrip_eq_false _ _
            (containsSeq_beforeFirst_eq_false lTwitter lWhatsApp afterTw htwC)
        · exact containsSeq_pyStrip_eq_false _ _
            (containsSeq_beforeFirst_self lWhatsApp (by decide) afterTw)
        · exact containsSeq_pyStrip_eq_false _ _ hwaC

/-- Witness for C4 at the spec's example input. -/
theorem extracted_bodies_never_contain_labels_witness :
    containsSeq lLinkedIn ("Join us! #Event".data) = false ∧
    containsSeq lTwitter ("Join us! #Event".data) = false ∧
    containsSeq lTwitter ("Come join! #Fun".data) = false ∧
    containsSeq lWhatsApp ("Come join! #Fun".data) = false ∧
    containsSeq lWhatsApp ("Hey, check this out!".data) = false :=
  extracted_bodies_never_contain_labels
    ("LinkedIn: Join us! #Event\nTwitter: Come join! #Fun\nWhatsApp: Hey, check this out!".data)
    ("Join us! #Event".data) ("Come join! #Fun".data) ("Hey, check this out!".data)
    (by decide)

/-- C6: when the generated text contains none of the three labels, the
extraction block is skipped (`len(sections) <= 1`) rather than crashing —
no platform text is produced — and the raw generated text is still rendered
in full (`st.markdown(posts)`, line 140) for fallback display. -/
theorem no_labels_skips_and_preserves_raw (posts : List Char)
    (h1 : containsSeq lLinkedIn posts = false)
    (h2 : containsSeq lTwitter posts = false)
    (h3 : containsSeq lWhatsApp posts = false) :
    extractPosts posts = .skipped ∧
    ∀ k d : List Char, k ≠ [] → 10 ≤ (pyStrip d).length → posts ≠ [] →
      (runMain k d (some posts) true).successBlock = some ⟨posts, .skipped, true⟩ := by
  have hfo : firstOcc lLinkedIn posts = none := by
    unfold containsSeq at h1
    cases hf : firstOcc lLinkedIn posts with
    | none => rfl
    | some i => rw [hf] at h1; cases h1
  have hskip : extractPosts posts = .skipped := by
    unfold extractPosts splitGet1
    rw [hfo]
  refine ⟨hskip, ?_⟩
  intro k d hk hd hp
  have hv : ¬(d = [] ∨ (pyStrip d).length < 10) := by
    rintro (rfl | hlt)
    · exact absurd hd (by decide)
    · omega
  unfold runMain
  rw [if_neg hk, if_neg hv]
  have hc : (pyTruthy (generate_social_media_posts (some posts)).1
      && (generate_event_image true).1) = true := by
    simp [generate_social_media_posts, generate_event_image, pyTruthy,
      List.isEmpty_iff, hp]
  rw [if_pos hc]
  simp [generate_social_media_posts, hskip, crashedB]

/-- Witness for C6 at the spec's example input. -/
theorem no_labels_skips_and_preserves_raw_witness :
    extractPosts ("Here is some content without any labels.".data) = .skipped ∧
    (runMain ("k".data) ("a detailed event".data)
        (some ("Here is some content without any labels.".data)) true).successBlock
      = some ⟨"Here is some content without any labels.".data, .skipped, true⟩ := by
  obtain ⟨hs, hr⟩ := no_labels_skips_and_preserves_raw
    ("Here is some content without any labels.".data) (by decide) (by decide) (by decide)
  exact ⟨hs, hr ("k".data) ("a detailed event".data) (by decide) (by decide) (by decide)⟩

/-- C7 (counterexample): validation does not enforce a minimum of 10
non-whitespace characters. The description `"a        b"` has only two
non-whitespace characters, yet with a credential present no validation
error is surfaced and both remote calls are issued, because line 123 checks
`len(event_details.strip()) < 10` — the length after trimming only the
ends — and `"a        b"` has trimmed length 10. -/
theorem nonwhitespace_count_not_enforced :
    (("a        b".data).filter (fun c => !pyIsSpace c)).length < 10 ∧
    (runMain ("k".data) ("a        b".data) (some ("x".data)) true).validationError = false ∧
    (runMain ("k".data) ("a        b".data) (some ("x".data)) true).calledText = true ∧
    (runMain ("k".data) ("a        b".data) (some ("x".data)) true).calledImage = true := by
  decide

/-- C7 (amended): when the credential is missing or the event description
has fewer than 10 characters after trimming leading/trailing whitespace, a
validation error is surfaced and neither remote call is attempted; when
both inputs pass this check, both remote calls are issued. -/
theorem validation_gate (k d : List Char) (tP : Option (List Char)) (iP : Bool) :
    ((k = [] ∨ (pyStrip d).length < 10) →
      (runMain k d tP iP).validationError = true ∧
      (runMain k d tP iP).calledText = false ∧
      (runMain k d tP iP).calledImage = false) ∧
    (k ≠ [] → 10 ≤ (pyStrip d).length →
      (runMain k d tP iP).validationError = false ∧
      (runMain k d tP iP).calledText = true ∧
      (runMain k d tP iP).calledImage = true) := by
  constructor
  · intro h
    unfold runMain
    by_cases hk : k = []
    · rw [if_pos hk]
      exact ⟨rfl, rfl, rfl⟩
    · have hlt : (pyStrip d).length < 10 := by
        rcases h with h | h
        · exact absurd h hk
        · exact h
      rw [if_neg hk, if_pos (Or.inr hlt)]
      exact ⟨rfl, rfl, rfl⟩
  · intro hk hd
    have hv : ¬(d = [] ∨ (pyStrip d).length < 10) := by
      rintro (rfl | hlt)
      · exact absurd hd (by decide)
      · omega
    unfold runMain
    rw [if_neg hk, if_neg hv]
    by_cases hc : (pyTruthy (generate_social_media_posts tP).1
        && (generate_event_image iP).1) = true
    · rw [if_pos hc]
      exact ⟨rfl, rfl, rfl⟩
    · rw [if_neg hc]
      exact ⟨rfl, rfl, rfl⟩

/-- Witness for C7's amended claim: empty credential blocks the calls, and
valid inputs issue them. -/
theorem validation_gate_witness :
    ((runMain [] ("whatever text".data) none true).validationError = true ∧
      (runMain [] ("whatever text".data) none true).calledText = false ∧
      (runMain [] ("whatever text".data) none true).calledImage = false) ∧
    ((runMain ("k".data) ("a detailed event".data) none true).validationError = false ∧
      (runMain ("k".data) ("a detailed event".data) none true).calledText = true ∧
      (runMain ("k".data) ("a detailed event".data) none true).calledImage = true) :=
  ⟨(validation_gate [] ("whatever text".data) none true).1 (Or.inl rfl),
   (validation_gate ("k".data) ("a detailed event".data) none true).2
     (by decide) (by decide)⟩

/-- C8: once validation passes, both remote calls are always made — each
call's failure is caught inside its own function (`except` at lines 40-42
and 76-78) and surfaced as an `st.error` message instead of propagating, so
a fault of the text call never prevents the image call and vice versa. -/
theorem provider_faults_isolated (k d : List Char) (tP : Option (List Char)) (iP : Bool)
    (hk : k ≠ []) (hd : 10 ≤ (pyStrip d).length) :
    (runMain k d tP iP).calledText = true ∧
    (runMain k d tP iP).calledImage = true ∧
    ((runMain k d tP iP).textErrorShown = true ↔ tP = none) ∧
    ((runMain k d tP iP).imageErrorShown = true ↔ iP = false) := by
  have hv : ¬(d = [] ∨ (pyStrip d).length < 10) := by
    rintro (rfl | hlt)
    · exact absurd hd (by decide)
    · omega
  unfold runMain
  rw [if_neg hk, if_neg hv]
  by_cases hc : (pyTruthy (generate_social_media_posts tP).1
      && (generate_event_image iP).1) = true
  · rw [if_pos hc]
    refine ⟨rfl, rfl, ?_, ?_⟩ <;> cases tP <;> cases iP <;>
      simp [generate_social_media_posts, generate_event_image]
  · rw [if_neg hc]
    refine ⟨rfl, rfl, ?_, ?_⟩ <;> cases tP <;> cases iP <;>
      simp [generate_social_media_posts, generate_event_image]

/-- Witness for C8: a text-provider fault still has the image call made,
with the text error surfaced. -/
theorem provider_faults_isolated_witness :
    (runMain ("k".data) ("our launch party".data) none true).calledText = true ∧
    (runMain ("k".data) ("our launch party".data) none true).calledImage = true ∧
    ((runMain ("k".data) ("our launch party".data) none true).textErrorShown = true
      ↔ (none : Option (List Char)) = none) ∧
    ((runMain ("k".data) ("our launch party".data) none true).imageErrorShown = true
      ↔ true = false) :=
  provider_faults_isolated ("k".data) ("our launch party".data) none true
    (by decide) (by decide)

/-- C9: the success branch (`if posts and image:`, line 135) — posts,
per-platform tabs, image and download link — is never rendered when either
remote result is missing: a `None` text result or a failed image call means
`successBlock = none`. -/
theorem success_requires_both_results (k d : List Char) (tP : Option (List Char)) (iP : Bool)
    (h : tP = none ∨ iP = false) :
    (runMain k d tP iP).successBlock = none := by
  have hc : (pyTruthy (generate_social_media_posts tP).1
      && (generate_event_image iP).1) = false := by
    rcases h with rfl | rfl
    · rfl
    · cases tP <;> simp [generate_social_media_posts, generate_event_image]
  unfold runMain
  by_cases hk : k = []
  · rw [if_pos hk]
  · rw [if_neg hk]
    by_cases hv : d = [] ∨ (pyStrip d).length < 10
    · rw [if_pos hv]
    · rw [if_neg hv, if_neg (by simp [hc])]

/-- Witness for C9: with valid inputs but a failed text call, the success
branch is not rendered. -/
theorem success_requires_both_results_witness :
    (runMain ("k".data) ("our launch party".data) none true).successBlock = none :=
  success_requires_both_results ("k".data) ("our launch party".data) none true (Or.inl rfl)

/-- C10: the source for all three extractions is exactly the segment of the
generated text strictly between the first and second occurrences of
`LinkedIn:` (everything before the first occurrence and everything from the
second occurrence on is dropped); when `LinkedIn:` occurs exactly once, the
segment is everything after that occurrence. -/
theorem extraction_window_between_linkedin_occurrences :
    (∀ pre mid post : List Char,
      firstOcc lLinkedIn (pre ++ lLinkedIn ++ mid ++ lLinkedIn ++ post) = some pre.length →
      firstOcc lLinkedIn (mid ++ lLinkedIn ++ post) = some mid.length →
      extractPosts (pre ++ lLinkedIn ++ mid ++ lLinkedIn ++ post) = extractFromSection mid) ∧
    (∀ pre rest : List Char,
      firstOcc lLinkedIn (pre ++ lLinkedIn ++ rest) = some pre.length →
      firstOcc lLinkedIn rest = none →
      extractPosts (pre ++ lLinkedIn ++ rest) = extractFromSection rest) := by
  constructor
  · intro pre mid post h1 h2
    apply extractPosts_eq_of_seg
    have hdrop : (pre ++ lLinkedIn ++ mid ++ lLinkedIn ++ post).drop
        (pre.length + lLinkedIn.length) = mid ++ lLinkedIn ++ post := by
      have hassoc : pre ++ lLinkedIn ++ mid ++ lLinkedIn ++ post
          = (pre ++ lLinkedIn) ++ (mid ++ lLinkedIn ++ post) := by
        simp [List.append_assoc]
      rw [hassoc]
      exact List.drop_left' (by simp)
    have htake : (mid ++ lLinkedIn ++ post).take mid.length = mid := by
      rw [List.append_assoc]
      exact List.take_left' rfl
    rw [splitGet1_eq_some lLinkedIn _ pre.length h1, hdrop,
      beforeFirst_eq_take lLinkedIn _ mid.length h2, htake]
  · intro pre rest h1 h2
    apply extractPosts_eq_of_seg
    have hdrop : (pre ++ lLinkedIn ++ rest).drop (pre.length + lLinkedIn.length) = rest :=
      List.drop_left' (by simp)
    rw [splitGet1_eq_some lLinkedIn _ pre.length h1, hdrop,
      beforeFirst_eq_self lLinkedIn rest h2]

/-- Witness for C10: with a prefix before the first `LinkedIn:` and junk
after a second one, the extraction sees only the middle window. -/
theorem extraction_window_witness :
    extractPosts ("intro ".data ++ lLinkedIn ++ " A Twitter: B WhatsApp: C ".data
        ++ lLinkedIn ++ "junk".data)
      = extractFromSection (" A Twitter: B WhatsApp: C ".data) :=
  extraction_window_between_linkedin_occurrences.1
    ("intro ".data) (" A Twitter: B WhatsApp: C ".data) ("junk".data)
    (by decide) (by decide)

end EventsApp
